import Mathlib

/-!
Shallow embedding of `src/backend/server.js` of the
`discover-dollar-assignment` repository: an Express bootstrap file that
registers middleware (cors, json, urlencoded), initiates a Mongoose
database connection, mounts a liveness route `GET /` plus an external
tutorial route module, and listens on `process.env.PORT || 8080` bound to
host `0.0.0.0`.
-/

namespace DiscoverDollar

/-- A JavaScript value as it occurs in the expressions we embed:
`undefined` (an unset environment variable), a string (a set environment
variable), or a number (the literal `8080`). -/
inductive JsVal where
  | undef : JsVal
  | str : String → JsVal
  | num : Nat → JsVal
deriving DecidableEq, Repr

/-- JavaScript truthiness for the values above: `undefined` is falsy, a
string is falsy iff empty, a number is falsy iff zero. -/
def JsVal.truthy : JsVal → Bool
  | .undef => false
  | .str s => decide (s ≠ "")
  | .num n => decide (n ≠ 0)

/-- String rendering of a JavaScript value, as used by template-literal
interpolation in the listen callback log line. -/
def JsVal.render : JsVal → String
  | .undef => "undefined"
  | .str s => s
  | .num n => toString n

/-- JavaScript `a || b`: `a` if `a` is truthy, else `b`. -/
def jsOr (a b : JsVal) : JsVal := if a.truthy then a else b

/-- Reading `process.env.k`: an unset variable is `undefined`, a set one is
a string. The environment is modelled as an association list. -/
def envGet (env : List (String × String)) (k : String) : JsVal :=
  match env.lookup k with
  | none => .undef
  | some v => .str v

/-- `const PORT = process.env.PORT || 8080` (server.js line 34). -/
def resolvePort (env : List (String × String)) : JsVal :=
  jsOr (envGet env "PORT") (.num 8080)

/-- The host argument of `app.listen(PORT, "0.0.0.0", ...)` (server.js
line 36): the IPv4 wildcard address, binding all network interfaces. -/
def listenHost : String := "0.0.0.0"

/-- JSON values, as far as the response bodies of server.js need them. -/
inductive Json where
  | str : String → Json
  | obj : List (String × Json) → Json
deriving Repr

/-- HTTP methods relevant to the embedded routes. -/
inductive Method where
  | GET : Method
  | POST : Method
  | PUT : Method
  | DELETE : Method
deriving DecidableEq, Repr

/-- An HTTP request as seen by the Express handlers: method, path,
headers, query string and raw body. -/
structure Request where
  method : Method
  path : String
  headers : List (String × String)
  query : String
  body : String
deriving DecidableEq, Repr

/-- An HTTP response: status code, headers and JSON body. -/
structure Response where
  status : Nat
  headers : List (String × String)
  body : Json
deriving Repr

/-- The static body sent by the `GET /` handler (server.js line 29). -/
def welcomeBody : Json :=
  .obj [("message", .str "Welcome to Test application.")]

/-- The handler registered by `app.get("/", ...)` (server.js lines 28-30):
`res.json(...)` serialises the literal object and sends it with the
default status 200 and a JSON content type. The request is never read. -/
def rootHandler (_req : Request) : Response :=
  { status := 200
    headers := [("Content-Type", "application/json")]
    body := welcomeBody }

/-- `cors()` with no options (server.js line 6): the default configuration
of the cors middleware has origin `*`, i.e. it sets the header
`Access-Control-Allow-Origin: *` on every response it decorates, with no
origin allow-list consulted. -/
def corsMiddleware (_req : Request) (res : Response) : Response :=
  { res with headers := ("Access-Control-Allow-Origin", "*") :: res.headers }

/-- The response produced for `GET /` after the middleware stack ran: the
body parsers leave the response untouched, cors adds its header, and the
route handler supplies status and body. -/
def handleRoot (req : Request) : Response :=
  corsMiddleware req (rootHandler req)

/-- The constant value of `handleRoot` on every request. -/
def welcomeResponse : Response :=
  { status := 200
    headers := [("Access-Control-Allow-Origin", "*"),
                ("Content-Type", "application/json")]
    body := welcomeBody }

/-- The database-connection phase of the process. -/
inductive DbState where
  | notStarted : DbState
  | pending : DbState
  | connected : DbState
  | failed : DbState
deriving DecidableEq, Repr

/-- Request dispatch of the app. `app.get("/")` is registered before the
tutorial route module (server.js line 28 before line 32), and Express
dispatches to the first matching route, so `GET /` always reaches
`rootHandler`. The tutorial route module (repository code not included
under src/) registers its handlers under its own path prefix; those
requests are delegated and modelled as `none`. The database state is
passed explicitly to record that dispatch never consults it. -/
def handleRequest (_dbs : DbState) (req : Request) : Option Response :=
  if req.method = Method.GET ∧ req.path = "/" then some (handleRoot req)
  else none

/-- The options object passed to `db.mongoose.connect` (server.js lines
15-18). -/
structure ConnectOptions where
  useNewUrlParser : Bool
  useUnifiedTopology : Bool
deriving DecidableEq, Repr

/-- The literal options of the connect call: both flags enabled. -/
def connectOptions : ConnectOptions :=
  { useNewUrlParser := true, useUnifiedTopology := true }

/-- The middleware registered by the three `app.use` calls. -/
inductive Middleware where
  | cors : Middleware
  | json : Middleware
  | urlencoded : Bool → Middleware
deriving DecidableEq, Repr

/-- One top-level registration statement of server.js. -/
inductive SetupStep where
  | use : Middleware → SetupStep
  | connectDb : ConnectOptions → SetupStep
  | get : String → SetupStep
  | mountTutorialRoutes : SetupStep
  | listen : SetupStep
deriving DecidableEq, Repr

/-- The top-level statements of server.js in source order: `app.use(cors())`
(line 6), `app.use(express.json())` (line 9),
`app.use(express.urlencoded(extended true))` (line 10),
`db.mongoose.connect(db.url, options)` (lines 14-18), `app.get("/", ...)`
(lines 28-30), mounting the tutorial route module (line 32), and
`app.listen(PORT, "0.0.0.0", ...)` (lines 36-38). -/
def serverSetup : List SetupStep :=
  [ .use .cors,
    .use .json,
    .use (.urlencoded true),
    .connectDb connectOptions,
    .get "/",
    .mountTutorialRoutes,
    .listen ]

/-- Whether a setup step is a middleware registration. -/
def SetupStep.isMiddleware : SetupStep → Bool
  | .use _ => true
  | _ => false

/-- Whether a setup step mounts a route handler (the inline `GET /` route
or the delegated tutorial route module). -/
def SetupStep.isRouteMount : SetupStep → Bool
  | .get _ => true
  | .mountTutorialRoutes => true
  | _ => false

/-- The process-level state of the server: which startup steps completed,
the database-connection phase, the socket state, the console log, and the
exit code once `process.exit` ran. -/
structure ProcState where
  middlewareDone : Bool
  routesDone : Bool
  dbState : DbState
  listening : Bool
  log : List String
  exitCode : Option Nat
deriving DecidableEq, Repr

/-- The state at process start, before any statement ran. -/
def initState : ProcState :=
  { middlewareDone := false
    routesDone := false
    dbState := .notStarted
    listening := false
    log := []
    exitCode := none }

/-- Effect of the three `app.use` calls (server.js lines 6-10). -/
def registerMiddleware (s : ProcState) : ProcState :=
  { s with middlewareDone := true }

/-- Effect of initiating `db.mongoose.connect` (server.js lines 14-18):
the returned promise is pending; nothing is awaited. -/
def startConnect (s : ProcState) : ProcState :=
  { s with dbState := .pending }

/-- Effect of registering `app.get("/")` and the tutorial route module
(server.js lines 28-32). -/
def mountRoutes (s : ProcState) : ProcState :=
  { s with routesDone := true }

/-- The synchronous top-level script of server.js: Node runs the whole
module to completion before any promise callback fires, so middleware
registration, connect initiation and route mounting all happen in one
uninterrupted run, and the `app.listen` call is issued at its end without
any condition on the connection promise. -/
def bootScript (s : ProcState) : ProcState :=
  mountRoutes (startConnect (registerMiddleware s))

/-- Effect of the socket bind succeeding: the listen callback (server.js
lines 36-38) logs the template literal with the resolved port. -/
def listenSucceed (env : List (String × String)) (s : ProcState) : ProcState :=
  { s with listening := true
           log := s.log ++
             ["Server is running on port " ++ (resolvePort env).render ++ "."] }

/-- The `.then` handler of the connect promise (server.js lines 19-21). -/
def onDbSuccess (s : ProcState) : ProcState :=
  { s with dbState := .connected
           log := s.log ++ ["Connected to the database!"] }

/-- The `.catch` handler of the connect promise (server.js lines 22-25):
it logs the failure and calls `process.exit()` with no argument, which
terminates with the current `process.exitCode`, 0 by default — this module
never sets it, so the exit status is 0. -/
def onDbFailure (err : String) (s : ProcState) : ProcState :=
  { s with dbState := .failed
           log := s.log ++ ["Cannot connect to the database! " ++ err]
           exitCode := some 0 }

/-- One event of the Node event loop, guarded so that nothing runs after
`process.exit`: the synchronous script run, the socket bind completing,
and the connect promise resolving or rejecting. -/
inductive Step (env : List (String × String)) : ProcState → ProcState → Prop
  | boot (s : ProcState) :
      s.exitCode = none → s.middlewareDone = false →
      Step env s (bootScript s)
  | bindDone (s : ProcState) :
      s.exitCode = none → s.routesDone = true → s.listening = false →
      Step env s (listenSucceed env s)
  | dbOk (s : ProcState) :
      s.exitCode = none → s.dbState = .pending →
      Step env s (onDbSuccess s)
  | dbErr (s : ProcState) (e : String) :
      s.exitCode = none → s.dbState = .pending →
      Step env s (onDbFailure e s)

/-- Reachability of a process state from the initial state. -/
inductive Reach (env : List (String × String)) : ProcState → Prop
  | init : Reach env initState
  | next {s t : ProcState} : Reach env s → Step env s t → Reach env t

/-- Header lookup for the cross-origin response header. -/
def allowOriginHeader (r : Response) : Option String :=
  r.headers.lookup "Access-Control-Allow-Origin"

/-- Whether an `Access-Control-Allow-Origin` header value permits a given
request origin: the wildcard permits every origin, otherwise the value
must equal the origin; an absent header permits nothing. -/
def permitsOrigin (h : Option String) (origin : String) : Bool :=
  match h with
  | none => false
  | some v => (v == "*") || (v == origin)

/-- A sample request used by witnesses: a cross-origin GET of `/`. -/
def sampleReq : Request :=
  { method := .GET
    path := "/"
    headers := [("Origin", "http://example.com")]
    query := ""
    body := "" }

/-- C1: for every request, GET / returns HTTP 200 with the exact JSON body
with message "Welcome to Test application." once the server is listening,
regardless of the database state: dispatch and handler never read the
database phase, so the same constant response is produced in every
database state. -/
theorem c1_root_liveness (s : ProcState) (req : Request)
    (_hl : s.listening = true) (hm : req.method = Method.GET)
    (hp : req.path = "/") :
    handleRequest s.dbState req = some welcomeResponse ∧
    welcomeResponse.status = 200 ∧ welcomeResponse.body = welcomeBody := by
  refine ⟨?_, rfl, rfl⟩
  simp [handleRequest, hm, hp, handleRoot, corsMiddleware, rootHandler,
    welcomeResponse]

/-- Witness for C1 at a listening state with the connection still pending
and a concrete cross-origin GET / request. -/
theorem c1_root_liveness_witness :
    handleRequest (listenSucceed [] (bootScript initState)).dbState sampleReq
      = some welcomeResponse ∧
    welcomeResponse.status = 200 ∧ welcomeResponse.body = welcomeBody :=
  c1_root_liveness (listenSucceed [] (bootScript initState)) sampleReq rfl rfl
    rfl

/-- C2 counterexample: the `.catch` handler calls `process.exit()` with no
argument, so at a concrete failure the recorded exit status is 0, not a
non-zero status as the claim states. -/
theorem c2_counterexample :
    (onDbFailure "connection refused" (bootScript initState)).exitCode
      = some 0 ∧
    ¬ ∃ c : Nat,
      (onDbFailure "connection refused" (bootScript initState)).exitCode
        = some c ∧ c ≠ 0 := by
  constructor
  · rfl
  · rintro ⟨c, hc, hne⟩
    have h0 : (onDbFailure "connection refused"
        (bootScript initState)).exitCode = some 0 := rfl
    rw [h0] at hc
    exact hne (Option.some.inj hc).symm

/-- C2 (amended): if the asynchronous connection attempt fails, the
program appends exactly the failure log line, records termination, and no
further event-loop step is possible (no retry, no backoff); the exit
status is 0, the default of an argumentless `process.exit()` call, not a
non-zero status. -/
theorem c2_db_failure_fail_fast (s : ProcState) (e : String) :
    (onDbFailure e s).exitCode = some 0 ∧
    (onDbFailure e s).log
      = s.log ++ ["Cannot connect to the database! " ++ e] ∧
    ∀ (env : List (String × String)) (t : ProcState),
      ¬ Step env (onDbFailure e s) t := by
  refine ⟨rfl, rfl, ?_⟩
  intro env t h
  cases h with
  | boot hex _ => simp [onDbFailure] at hex
  | bindDone hex _ _ => simp [onDbFailure] at hex
  | dbOk hex _ => simp [onDbFailure] at hex
  | dbErr _ hex _ => simp [onDbFailure] at hex

/-- C3: the listen call is the last top-level statement, issued after
middleware and route registration without awaiting the connection promise;
consequently the state with the socket bound and the connection still
pending is reachable, i.e. LISTENING is reached before RUNNING. -/
theorem c3_listen_not_gated_on_db (env : List (String × String)) :
    serverSetup.getLast? = some SetupStep.listen ∧
    (bootScript initState).dbState = DbState.pending ∧
    Reach env (listenSucceed env (bootScript initState)) ∧
    (listenSucceed env (bootScript initState)).listening = true ∧
    (listenSucceed env (bootScript initState)).dbState = DbState.pending := by
  refine ⟨rfl, rfl, ?_, rfl, rfl⟩
  exact Reach.next (Reach.next Reach.init (Step.boot initState rfl rfl))
    (Step.bindDone (bootScript initState) rfl rfl rfl)

/-- C4: the server binds host 0.0.0.0 (all IPv4 interfaces); the port is
the value of the PORT environment variable when it is set to a non-empty
string, and the default 8080 when PORT is unset. -/
theorem c4_port_binding (env : List (String × String)) :
    listenHost = "0.0.0.0" ∧
    (envGet env "PORT" = JsVal.undef → resolvePort env = JsVal.num 8080) ∧
    (∀ p : String, envGet env "PORT" = JsVal.str p → p ≠ "" →
      resolvePort env = JsVal.str p) := by
  refine ⟨rfl, ?_, ?_⟩
  · intro h
    simp [resolvePort, jsOr, h, JsVal.truthy]
  · intro p h hp
    simp [resolvePort, jsOr, h, JsVal.truthy, hp]

/-- Witness for C4: PORT=9090 binds 9090; an empty environment binds
8080. -/
theorem c4_port_binding_witness :
    listenHost = "0.0.0.0" ∧
    resolvePort [("PORT", "9090")] = JsVal.str "9090" ∧
    resolvePort [] = JsVal.num 8080 :=
  ⟨(c4_port_binding []).1,
   (c4_port_binding [("PORT", "9090")]).2.2 "9090" rfl (by decide),
   (c4_port_binding []).2.1 rfl⟩

/-- C5: middleware is registered in the fixed order cors, json body
parser, urlencoded body parser with the extended option enabled, and every
middleware registration precedes every route mounting step. -/
theorem c5_middleware_order :
    serverSetup.take 3
      = [SetupStep.use Middleware.cors, SetupStep.use Middleware.json,
         SetupStep.use (Middleware.urlencoded true)] ∧
    ∀ i j : Fin serverSetup.length,
      (serverSetup.get i).isMiddleware = true →
      (serverSetup.get j).isRouteMount = true →
      (i : Nat) < (j : Nat) := by
  decide

/-- Witness for C5 at the first middleware (index 0) and the inline route
registration (index 4). -/
theorem c5_middleware_order_witness : (0 : Nat) < 4 :=
  c5_middleware_order.2 ⟨0, by decide⟩ ⟨4, by decide⟩ (by decide) (by decide)

/-- C6: the default cors middleware sets the wildcard
Access-Control-Allow-Origin header on the GET / response, which permits
every request origin with no allow-list consulted. -/
theorem c6_cors_allows_all_origins (dbs : DbState) (req : Request)
    (origin : String) (hm : req.method = Method.GET) (hp : req.path = "/") :
    handleRequest dbs req = some welcomeResponse ∧
    allowOriginHeader welcomeResponse = some "*" ∧
    permitsOrigin (allowOriginHeader welcomeResponse) origin = true := by
  refine ⟨?_, rfl, ?_⟩
  · simp [handleRequest, hm, hp, handleRoot, corsMiddleware, rootHandler,
      welcomeResponse]
  · simp [permitsOrigin, allowOriginHeader, welcomeResponse]

/-- Witness for C6 at a concrete cross-origin GET / request with the
database connection pending. -/
theorem c6_cors_allows_all_origins_witness :
    handleRequest DbState.pending sampleReq = some welcomeResponse ∧
    allowOriginHeader welcomeResponse = some "*" ∧
    permitsOrigin (allowOriginHeader welcomeResponse) "http://example.com"
      = true :=
  c6_cors_allows_all_origins DbState.pending sampleReq "http://example.com"
    rfl rfl

/-- C7: the connect call passes options with both the modern URL parser
and the unified topology engine enabled, and exactly these options appear
at the connect step of the bootstrap. -/
theorem c7_connect_options :
    connectOptions.useNewUrlParser = true ∧
    connectOptions.useUnifiedTopology = true ∧
    SetupStep.connectDb connectOptions ∈ serverSetup := by
  decide

/-- C8: a step that produces a terminated state starts from the pending
connection phase and ends in the failed phase (the FATAL_EXIT transition
exists only out of DB_CONNECTING), and every reachable terminated state
has the failed database phase — no other startup step has an error path. -/
theorem c8_exit_only_from_db_failure (env : List (String × String)) :
    (∀ s t : ProcState, Step env s t → t.exitCode ≠ none →
      s.dbState = DbState.pending ∧ t.dbState = DbState.failed ∧
      s.exitCode = none) ∧
    (∀ s : ProcState, Reach env s → s.exitCode ≠ none →
      s.dbState = DbState.failed) := by
  constructor
  · intro s t hstep hexit
    cases hstep with
    | boot hex _ => exact absurd hex hexit
    | bindDone hex _ _ => exact absurd hex hexit
    | dbOk hex _ => exact absurd hex hexit
    | dbErr _ hex hpend => exact ⟨hpend, rfl, hex⟩
  · intro s hreach
    induction hreach with
    | init => intro hexit; exact absurd rfl hexit
    | next hr hstep ih =>
        intro hexit
        cases hstep with
        | boot hex _ => exact absurd hex hexit
        | bindDone hex _ _ => exact absurd hex hexit
        | dbOk hex _ => exact absurd hex hexit
        | dbErr _ hex hpend => rfl

/-- Witness for C8 at the concrete failing transition out of the booted
state. -/
theorem c8_exit_only_from_db_failure_witness :
    (bootScript initState).dbState = DbState.pending ∧
    (onDbFailure "refused" (bootScript initState)).dbState
      = DbState.failed ∧
    (bootScript initState).exitCode = none :=
  (c8_exit_only_from_db_failure []).1 (bootScript initState)
    (onDbFailure "refused" (bootScript initState))
    (Step.dbErr (bootScript initState) "refused" rfl rfl)
    (by simp [onDbFailure])

/-- C9 counterexample: with PORT set to the string 0, the JavaScript
truthiness test succeeds (a non-empty string is truthy), so the resolved
port is the string 0, not the fallback 8080 the claim states. -/
theorem c9_counterexample :
    resolvePort [("PORT", "0")] = JsVal.str "0" ∧
    resolvePort [("PORT", "0")] ≠ JsVal.num 8080 := by
  decide

/-- C9 (amended): the fallback applies to every falsy PORT value — unset
and the empty string both yield 8080 — but the string 0 is non-empty and
therefore truthy, so PORT=0 resolves to the string 0 (port 0), not to
8080. -/
theorem c9_falsy_port_fallback :
    resolvePort [] = JsVal.num 8080 ∧
    resolvePort [("PORT", "")] = JsVal.num 8080 ∧
    resolvePort [("PORT", "0")] = JsVal.str "0" := by
  decide

/-- C10: the GET / handler ignores its request entirely: any two requests,
whatever their headers, query strings or origins, produce the identical
response, both from the bare handler and through the middleware stack. -/
theorem c10_handler_deterministic (r₁ r₂ : Request) :
    rootHandler r₁ = rootHandler r₂ ∧ handleRoot r₁ = handleRoot r₂ :=
  ⟨rfl, rfl⟩

end DiscoverDollar
